import Mathlib

/-!
Shallow embedding of `bot.py` from the AI-Telegram-ChatBot repository.

The bot is a single-process relay: module-level startup code selects an AI
provider from environment variables (exiting on bad configuration),
`get_ai_response` dispatches a single-turn request to the selected provider
and maps every provider failure to a user-facing string, and
`handle_message` guards empty messages, shows a typing indicator, calls the
AI, and replies, with a one-shot fallback when the reply send fails.

Network and SDK behaviour is modelled by oracles: the provider call is a
function from the request to `Except ApiError response`, and the two
Telegram send attempts are given by two booleans saying whether each one
fails.  A Python expression that can raise inside the `try` block of
`get_ai_response` (such as `response.choices[0]` on an empty list) is
modelled by the same catch-all branch the code's `except` clause gives it.
-/

namespace Bot

/-- The AI provider selected at startup via the `AI_PROVIDER` variable
(`bot.py` lines 16-56). -/
inductive Provider where
  | openai
  | gemini
  deriving DecidableEq, Repr

/-- The lower-cased provider name string the code branches on. -/
def providerName : Provider → String
  | .openai => "openai"
  | .gemini => "gemini"

/-- Python `str.capitalize()`: first character upper-cased, the rest
lower-cased (used in the apology string, line 133). -/
def pyCapitalize (s : String) : String :=
  match s.toList with
  | [] => ""
  | c :: cs => String.mk (c.toUpper :: cs.map Char.toLower)

/-- Python `str.lower()` (used on `AI_PROVIDER` at line 16). -/
def pyLower (s : String) : String :=
  String.mk (s.toList.map Char.toLower)

/-- Python `str.strip()` (used on the OpenAI message content at line 103):
drop whitespace from both ends. -/
def pyStrip (s : String) : String :=
  String.mk (((s.toList.dropWhile Char.isWhitespace).reverse.dropWhile
    Char.isWhitespace).reverse)

/-- One entry of the `messages` array of an OpenAI chat request, and also
the `message` field of a response choice. -/
structure ChatMessage where
  role : String
  content : String
  deriving DecidableEq, Repr

/-- The OpenAI chat-completions request built at lines 92-102: a model name
and a messages list. -/
structure OpenAIRequest where
  model : String
  messages : List ChatMessage
  deriving DecidableEq, Repr

/-- One choice of an OpenAI chat-completions response. -/
structure OpenAIChoice where
  message : ChatMessage
  deriving DecidableEq, Repr

/-- An OpenAI chat-completions response: a list of choices. -/
structure OpenAIResponse where
  choices : List OpenAIChoice
  deriving DecidableEq, Repr

/-- One part of a Gemini candidate content (line 114 reads `.text`). -/
structure GeminiPart where
  text : String
  deriving DecidableEq, Repr

/-- Gemini candidate content; `parts` is optional because line 113 guards
with `hasattr(..., \x27parts\x27)`, and may also be an empty list. -/
structure GeminiContent where
  parts : Option (List GeminiPart)
  deriving DecidableEq, Repr

/-- A Gemini response candidate; `content` is optional because line 113
guards with `hasattr(..., \x27content\x27)` (and a `None` content behaves
the same way). -/
structure GeminiCandidate where
  content : Option GeminiContent
  deriving DecidableEq, Repr

/-- A Gemini block reason, exposing its `name` (lines 120-122). -/
structure BlockReason where
  name : String
  deriving DecidableEq, Repr

/-- Gemini `prompt_feedback`; `block_reason` optional, matching the
truthiness test `response.prompt_feedback.block_reason` at line 120. -/
structure PromptFeedback where
  block_reason : Option BlockReason
  deriving DecidableEq, Repr

/-- A Gemini generate-content response (lines 109-125). -/
structure GeminiResponse where
  candidates : List GeminiCandidate
  prompt_feedback : Option PromptFeedback
  deriving DecidableEq, Repr

/-- An exception raised by a provider SDK call, caught at line 131. -/
structure ApiError where
  msg : String
  deriving DecidableEq, Repr

/-- Request shape of each provider: OpenAI takes the structured chat
request, Gemini `generate_content_async` takes the raw text (line 109). -/
def ProviderRequest : Provider → Type
  | .openai => OpenAIRequest
  | .gemini => String

/-- Response shape of each provider. -/
def ProviderResponse : Provider → Type
  | .openai => OpenAIResponse
  | .gemini => GeminiResponse

/-- The request `get_ai_response` sends: for OpenAI, a single-turn messages
list holding only the user text (lines 92-98); for Gemini, the raw text. -/
def mkRequest : (p : Provider) → String → String → ProviderRequest p
  | .openai, model, msg => { model := model, messages := [{ role := "user", content := msg }] }
  | .gemini, _, msg => msg

/-- Fixed string at line 117. -/
def couldntGenerateMsg : String := "Sorry, I couldn\x27t generate a text response from that."

/-- Fixed string at line 124. -/
def emptyResponseMsg : String := "Sorry, I received an empty response from the AI."

/-- Prefix of the blocked-content string at line 121. -/
def blockedMsgPre : String := "My response was blocked due to: "

/-- Suffix of the blocked-content string at line 121. -/
def blockedMsgPost : String := ". Please rephrase your request."

/-- The generic failure string returned by the `except` clause at line 133,
with the capitalized provider name interpolated. -/
def apologyString (p : Provider) : String :=
  "Sorry, I encountered an error trying to reach the AI ("
    ++ pyCapitalize (providerName p) ++ "). Please try again later."

/-- Fallback text sent at line 158 when the reply send fails. -/
def sendFailFallback : String := "Sorry, I couldn\x27t send the response back. Please try again."

/-- Lines 113-118: the string extracted from the first Gemini candidate.
If content and parts are present and parts is non-empty, the first part's
text; otherwise the fixed string of line 117. -/
def candidateText (c : GeminiCandidate) : String :=
  match c.content with
  | some ct =>
    match ct.parts with
    | some (p :: _) => p.text
    | _ => couldntGenerateMsg
  | none => couldntGenerateMsg

/-- Lines 111-125: extraction from a Gemini response.  The candidates check
comes first; only when `response.candidates` is empty are the block reason
and the empty-response fallback consulted. -/
def geminiExtract (r : GeminiResponse) : String :=
  match r.candidates with
  | c :: _ => candidateText c
  | [] =>
    match r.prompt_feedback with
    | some fb =>
      match fb.block_reason with
      | some br => blockedMsgPre ++ br.name ++ blockedMsgPost
      | none => emptyResponseMsg
    | none => emptyResponseMsg

/-- Lines 85-133, `get_ai_response`.  The provider call is the oracle
`api`; a raised exception is an `Except.error` and lands in the catch-all
branch.  For OpenAI, `response.choices[0]` on an empty list raises
`IndexError`, also caught by the same `except` clause, hence the `[]` case
returns the apology string too. -/
def get_ai_response : (p : Provider) → String →
    (ProviderRequest p → Except ApiError (ProviderResponse p)) → String → String
  | .openai, model, api, msg =>
    match api (mkRequest .openai model msg) with
    | .error _ => apologyString .openai
    | .ok r =>
      match r.choices with
      | c :: _ => pyStrip c.message.content
      | [] => apologyString .openai
  | .gemini, model, api, msg =>
    match api (mkRequest .gemini model msg) with
    | .error _ => apologyString .gemini
    | .ok r => geminiExtract r

/-- The success-path extractions of `get_ai_response` that can produce an
empty string: a first OpenAI choice whose content trims to empty, or a
first Gemini candidate whose extracted text is empty. -/
def successExtractEmpty : (p : Provider) → Except ApiError (ProviderResponse p) → Prop
  | .openai, .ok r =>
    match r.choices with
    | c :: _ => pyStrip c.message.content = ""
    | [] => False
  | .gemini, .ok r =>
    match r.candidates with
    | c :: _ => candidateText c = ""
    | [] => False
  | _, .error _ => False

/-- An observable action of `handle_message`: the typing indicator
(line 147), the AI call (line 150), the error log of a failed send
(line 156), and each `reply_text` attempt with whether it was delivered. -/
inductive Effect where
  | typing
  | queryAI (text : String)
  | logSendError
  | replyAttempt (text : String) (delivered : Bool)
  deriving DecidableEq, Repr

/-- Outcome of one `handle_message` invocation: the actions it performed in
order, and whether an exception escaped the handler. -/
structure HandlerResult where
  effects : List Effect
  raised : Bool
  deriving DecidableEq, Repr

/-- Lines 138-158, `handle_message`.  `text` is `update.message.text`
(`none` when absent); `aiResponse` stands for the value produced by
`get_ai_response`; `sendFails` and `fallbackFails` are oracles for the two
`reply_text` calls.  The first send is wrapped in `try`, so its failure is
logged and the fallback of line 158 attempted; the fallback itself is not
wrapped, so its failure escapes the handler. -/
def handle_message (text : Option String) (aiResponse : String)
    (sendFails fallbackFails : Bool) : HandlerResult :=
  match text with
  | none => { effects := [], raised := false }
  | some t =>
    if t = "" then { effects := [], raised := false }
    else
      let pre := [Effect.typing, Effect.queryAI t]
      if sendFails then
        if fallbackFails then
          { effects := pre ++ [Effect.replyAttempt aiResponse false, Effect.logSendError,
              Effect.replyAttempt sendFailFallback false],
            raised := true }
        else
          { effects := pre ++ [Effect.replyAttempt aiResponse false, Effect.logSendError,
              Effect.replyAttempt sendFailFallback true],
            raised := false }
      else
        { effects := pre ++ [Effect.replyAttempt aiResponse true], raised := false }

/-- The texts of the replies actually delivered to the conversation. -/
def deliveredReplies (r : HandlerResult) : List String :=
  r.effects.filterMap fun e =>
    match e with
    | .replyAttempt t true => some t
    | _ => none

/-- The immutable configuration assembled by the module-level startup code. -/
structure Config where
  provider : Provider
  apiKey : String
  modelName : String
  telegramToken : String
  deriving DecidableEq, Repr

/-- Python truthiness test `not os.getenv(...)`: true when the variable is
unset or set to the empty string. -/
def pyFalsy : Option String → Bool
  | none => true
  | some s => s = ""

/-- Lines 16-62, the module-level startup: read `AI_PROVIDER` (default
`"openai"`, lower-cased), branch on it, check the provider's API key, read
the model name default, then check `TELEGRAM_BOT_TOKEN`.  Each `exit()`
with its printed message is an `Except.error` carrying that message. -/
def startup (env : String → Option String) : Except String Config :=
  let pname := pyLower ((env "AI_PROVIDER").getD "openai")
  if pname = "openai" then
    if pyFalsy (env "OPENAI_API_KEY") then
      Except.error "OPENAI_API_KEY not found in .env file."
    else if pyFalsy (env "TELEGRAM_BOT_TOKEN") then
      Except.error "Error: TELEGRAM_BOT_TOKEN not found in .env file."
    else
      Except.ok { provider := .openai,
                  apiKey := (env "OPENAI_API_KEY").getD "",
                  modelName := (env "OPENAI_MODEL").getD "gpt-3.5-turbo",
                  telegramToken := (env "TELEGRAM_BOT_TOKEN").getD "" }
  else if pname = "gemini" then
    if pyFalsy (env "GOOGLE_API_KEY") then
      Except.error "GOOGLE_API_KEY not found in .env file for Gemini."
    else if pyFalsy (env "TELEGRAM_BOT_TOKEN") then
      Except.error "Error: TELEGRAM_BOT_TOKEN not found in .env file."
    else
      Except.ok { provider := .gemini,
                  apiKey := (env "GOOGLE_API_KEY").getD "",
                  modelName := (env "GEMINI_MODEL").getD "gemini-pro",
                  telegramToken := (env "TELEGRAM_BOT_TOKEN").getD "" }
  else
    Except.error ("Error: Invalid AI_PROVIDER specified in .env: " ++ pname
      ++ ". Choose \x27openai\x27 or \x27gemini\x27.")

/-- One inbound Telegram update together with the oracles that decide its
handling. -/
structure InboundEvent where
  text : Option String
  aiResponse : String
  sendFails : Bool
  fallbackFails : Bool
  deriving DecidableEq, Repr

/-- The whole process: startup, then (only if startup succeeded) handling
of each inbound message.  A startup error means no message is processed. -/
def runBot (env : String → Option String) (inbox : List InboundEvent) :
    Except String (List HandlerResult) :=
  match startup env with
  | .error m => .error m
  | .ok _ =>
    .ok (inbox.map fun ev => handle_message ev.text ev.aiResponse ev.sendFails ev.fallbackFails)

/-! ### Helper lemmas shared by the claim theorems -/

theorem string_append3_ne_empty (s t u : String) (hs : s ≠ "") : s ++ t ++ u ≠ "" := by
  intro h
  apply hs
  have hd := congrArg String.data h
  simp only [String.data_append] at hd
  rcases List.append_eq_nil.mp hd with ⟨h1, _⟩
  rcases List.append_eq_nil.mp h1 with ⟨h2, _⟩
  exact String.ext h2

theorem apologyString_ne_empty (p : Provider) : apologyString p ≠ "" := by
  cases p <;> decide

theorem get_ai_response_openai_error (model msg : String)
    (api : ProviderRequest Provider.openai → Except ApiError (ProviderResponse Provider.openai))
    (e : ApiError) (h : api (mkRequest Provider.openai model msg) = Except.error e) :
    get_ai_response Provider.openai model api msg = apologyString Provider.openai := by
  simp only [get_ai_response, h]

theorem get_ai_response_openai_ok (model msg : String)
    (api : ProviderRequest Provider.openai → Except ApiError (ProviderResponse Provider.openai))
    (r : OpenAIResponse) (h : api (mkRequest Provider.openai model msg) = Except.ok r) :
    get_ai_response Provider.openai model api msg =
      match r.choices with
      | c :: _ => pyStrip c.message.content
      | [] => apologyString Provider.openai := by
  simp only [get_ai_response, h]

theorem get_ai_response_gemini_error (model msg : String)
    (api : ProviderRequest Provider.gemini → Except ApiError (ProviderResponse Provider.gemini))
    (e : ApiError) (h : api (mkRequest Provider.gemini model msg) = Except.error e) :
    get_ai_response Provider.gemini model api msg = apologyString Provider.gemini := by
  simp only [get_ai_response, h]

theorem get_ai_response_gemini_ok (model msg : String)
    (api : ProviderRequest Provider.gemini → Except ApiError (ProviderResponse Provider.gemini))
    (r : GeminiResponse) (h : api (mkRequest Provider.gemini model msg) = Except.ok r) :
    get_ai_response Provider.gemini model api msg = geminiExtract r := by
  simp only [get_ai_response, h]

theorem geminiExtract_cons (c : GeminiCandidate) (cs : List GeminiCandidate)
    (fb : Option PromptFeedback) :
    geminiExtract { candidates := c :: cs, prompt_feedback := fb } = candidateText c := rfl

theorem candidateText_parts (c : GeminiCandidate) :
    (∃ ct pt ps, c.content = some ct ∧ ct.parts = some (pt :: ps) ∧ candidateText c = pt.text) ∨
    candidateText c = couldntGenerateMsg := by
  rcases c with ⟨content⟩
  cases content with
  | none => right; rfl
  | some ct =>
    rcases ct with ⟨parts⟩
    cases parts with
    | none => right; rfl
    | some l =>
      cases l with
      | nil => right; rfl
      | cons pt ps => exact Or.inl ⟨⟨some (pt :: ps)⟩, pt, ps, rfl, rfl, rfl⟩

theorem geminiExtract_ne_empty_of_nil_candidates (r : GeminiResponse)
    (h : r.candidates = []) : geminiExtract r ≠ "" := by
  rcases r with ⟨cands, fb⟩
  simp only at h
  subst h
  cases fb with
  | none => decide
  | some f =>
    rcases f with ⟨br⟩
    cases br with
    | none => decide
    | some b =>
      show blockedMsgPre ++ b.name ++ blockedMsgPost ≠ ""
      exact string_append3_ne_empty _ _ _ (by decide)

/-! ### Claim C1 -/

/-- Claim C1, counterexample: with the OpenAI provider, a successful
provider response whose first choice has empty message content makes
`get_ai_response` return the empty string, so the claim that the result is
always a non-empty string fails. -/
theorem get_ai_response_empty_on_empty_content :
    get_ai_response Provider.openai "gpt-3.5-turbo"
      (fun _ => Except.ok ⟨[⟨⟨"assistant", ""⟩⟩]⟩) "hello" = "" := rfl

/-- Claim C1 (amended): for every non-empty input text, `get_ai_response`
is a total function (every provider or network failure is caught and
mapped to the user-facing apology string), and its result is empty exactly
when the provider succeeded and the extracted success text is empty (the
first OpenAI choice content strips to empty, or the first Gemini
candidate's extracted text is empty); in every other case the result is a
non-empty string. -/
theorem get_ai_response_total_and_empty_iff (p : Provider) (model : String)
    (api : ProviderRequest p → Except ApiError (ProviderResponse p)) (msg : String)
    (_hmsg : msg ≠ "") :
    (∀ e, api (mkRequest p model msg) = Except.error e →
      get_ai_response p model api msg = apologyString p) ∧
    (get_ai_response p model api msg = "" ↔
      successExtractEmpty p (api (mkRequest p model msg))) := by
  cases p with
  | openai =>
    refine ⟨fun e he => get_ai_response_openai_error model msg api e he, ?_⟩
    cases hr : api (mkRequest Provider.openai model msg) with
    | error e =>
      rw [get_ai_response_openai_error model msg api e hr]
      simp only [successExtractEmpty]
      exact ⟨fun h => absurd h (apologyString_ne_empty _), fun h => h.elim⟩
    | ok r =>
      rw [get_ai_response_openai_ok model msg api r hr]
      rcases r with ⟨chs⟩
      cases chs with
      | nil =>
        simp only [successExtractEmpty]
        exact ⟨fun h => absurd h (apologyString_ne_empty _), fun h => h.elim⟩
      | cons c cs =>
        simp only [successExtractEmpty]
  | gemini =>
    refine ⟨fun e he => get_ai_response_gemini_error model msg api e he, ?_⟩
    cases hr : api (mkRequest Provider.gemini model msg) with
    | error e =>
      rw [get_ai_response_gemini_error model msg api e hr]
      simp only [successExtractEmpty]
      exact ⟨fun h => absurd h (apologyString_ne_empty _), fun h => h.elim⟩
    | ok r =>
      rw [get_ai_response_gemini_ok model msg api r hr]
      rcases r with ⟨cands, fb⟩
      cases cands with
      | nil =>
        simp only [successExtractEmpty]
        exact ⟨fun h =>
          absurd h (geminiExtract_ne_empty_of_nil_candidates ⟨[], fb⟩ rfl),
          fun h => h.elim⟩
      | cons c cs =>
        rw [geminiExtract_cons]
        simp only [successExtractEmpty]

/-- Claim C1 witness: the amended theorem applied at the concrete input
text `"hi"` with an OpenAI provider stub that raises. -/
theorem get_ai_response_total_and_empty_iff_witness :
    get_ai_response Provider.openai "gpt-3.5-turbo"
      (fun _ => Except.error ⟨"boom"⟩) "hi" = apologyString Provider.openai :=
  (get_ai_response_total_and_empty_iff Provider.openai "gpt-3.5-turbo"
    (fun _ => Except.error ⟨"boom"⟩) "hi" (by decide)).1 ⟨"boom"⟩ rfl

/-! ### Claim C2 -/

/-- Claim C2: with the Gemini provider, for every provider response that
has at least one candidate, `get_ai_response` returns either the text of
the first part of that candidate's content (when content and a non-empty
parts list are present) or the fixed could-not-generate string. -/
theorem gemini_candidate_result (model msg : String)
    (api : ProviderRequest Provider.gemini → Except ApiError (ProviderResponse Provider.gemini))
    (r : GeminiResponse) (c : GeminiCandidate) (cs : List GeminiCandidate)
    (h1 : api (mkRequest Provider.gemini model msg) = Except.ok r)
    (h2 : r.candidates = c :: cs) :
    (∃ ct pt ps, c.content = some ct ∧ ct.parts = some (pt :: ps) ∧
      get_ai_response Provider.gemini model api msg = pt.text) ∨
    get_ai_response Provider.gemini model api msg = couldntGenerateMsg := by
  have hres : get_ai_response Provider.gemini model api msg = candidateText c := by
    rw [get_ai_response_gemini_ok model msg api r h1]
    rcases r with ⟨cands, fb⟩
    simp only at h2
    subst h2
    exact geminiExtract_cons c cs fb
  rw [hres]
  exact candidateText_parts c

/-- Claim C2 witness: the theorem applied to a concrete Gemini response
whose single candidate carries the part text `"hello there"`. -/
theorem gemini_candidate_result_witness :
    (∃ ct pt ps,
      (GeminiCandidate.mk (some ⟨some [⟨"hello there"⟩]⟩)).content = some ct ∧
      ct.parts = some (pt :: ps) ∧
      get_ai_response Provider.gemini "gemini-pro"
        (fun _ => Except.ok ⟨[⟨some ⟨some [⟨"hello there"⟩]⟩⟩], none⟩) "hi" = pt.text) ∨
    get_ai_response Provider.gemini "gemini-pro"
      (fun _ => Except.ok ⟨[⟨some ⟨some [⟨"hello there"⟩]⟩⟩], none⟩) "hi" = couldntGenerateMsg :=
  gemini_candidate_result "gemini-pro" "hi"
    (fun _ => Except.ok ⟨[⟨some ⟨some [⟨"hello there"⟩]⟩⟩], none⟩)
    ⟨[⟨some ⟨some [⟨"hello there"⟩]⟩⟩], none⟩ ⟨some ⟨some [⟨"hello there"⟩]⟩⟩ []
    rfl rfl

/-! ### Claim C3 -/

/-- Claim C3: with the OpenAI provider, the request sent is a single-turn
request holding the model name and one user message with the input text;
on a successful response the result is the first choice's message content
with surrounding whitespace stripped; on a raised transport or API failure
the exception is caught and the generic apology string is returned. -/
theorem openai_single_turn_result (model msg : String)
    (api api2 : ProviderRequest Provider.openai → Except ApiError (ProviderResponse Provider.openai))
    (r : OpenAIResponse) (c : OpenAIChoice) (cs : List OpenAIChoice) (e : ApiError)
    (h1 : api (mkRequest Provider.openai model msg) = Except.ok r)
    (h2 : r.choices = c :: cs)
    (h3 : api2 (mkRequest Provider.openai model msg) = Except.error e) :
    mkRequest Provider.openai model msg =
      { model := model, messages := [{ role := "user", content := msg }] } ∧
    get_ai_response Provider.openai model api msg = pyStrip c.message.content ∧
    get_ai_response Provider.openai model api2 msg = apologyString Provider.openai := by
  refine ⟨rfl, ?_, get_ai_response_openai_error model msg api2 e h3⟩
  rw [get_ai_response_openai_ok model msg api r h1]
  rcases r with ⟨chs⟩
  simp only at h2
  subst h2
  rfl

/-- Claim C3 witness: the theorem applied at a concrete success response
with content `"  fine  "` (whose strip is `"fine"`) and a concrete raising
stub. -/
theorem openai_single_turn_result_witness :
    get_ai_response Provider.openai "gpt-3.5-turbo"
      (fun _ => Except.ok ⟨[⟨⟨"assistant", "  fine  "⟩⟩]⟩) "hi" =
        pyStrip "  fine  " ∧
    get_ai_response Provider.openai "gpt-3.5-turbo"
      (fun _ => Except.error ⟨"timeout"⟩) "hi" = apologyString Provider.openai :=
  (openai_single_turn_result "gpt-3.5-turbo" "hi"
    (fun _ => Except.ok ⟨[⟨⟨"assistant", "  fine  "⟩⟩]⟩)
    (fun _ => Except.error ⟨"timeout"⟩)
    ⟨[⟨⟨"assistant", "  fine  "⟩⟩]⟩ ⟨⟨"assistant", "  fine  "⟩⟩ [] ⟨"timeout"⟩
    rfl rfl rfl).2

/-! ### Claim C4 -/

/-- Claim C4, counterexample: a Gemini response that has both a candidate
(with part text `"hello"`) and the block reason `"SAFETY"` makes
`get_ai_response` return `"hello"`, which does not contain the block
reason, so the claim fails for responses that also carry candidates. -/
theorem blocked_reason_ignored_when_candidates_present :
    ¬ ∃ s t, get_ai_response Provider.gemini "gemini-pro"
      (fun _ => Except.ok ⟨[⟨some ⟨some [⟨"hello"⟩]⟩⟩], some ⟨some ⟨"SAFETY"⟩⟩⟩) "hi"
      = s ++ "SAFETY" ++ t := by
  have hres : get_ai_response Provider.gemini "gemini-pro"
      (fun _ => Except.ok ⟨[⟨some ⟨some [⟨"hello"⟩]⟩⟩], some ⟨some ⟨"SAFETY"⟩⟩⟩) "hi"
      = "hello" := rfl
  rintro ⟨s, t, h⟩
  rw [hres] at h
  have hd := congrArg (fun x => x.data.length) h
  simp only [String.data_append, List.length_append] at hd
  have h6 : ("SAFETY" : String).data.length = 6 := by decide
  have h5 : ("hello" : String).data.length = 5 := by decide
  rw [h5, h6] at hd
  omega

/-- Claim C4 (amended): for every Gemini provider response with no
candidates whose prompt feedback carries a block reason, the string
returned by `get_ai_response` contains that block reason's name. -/
theorem blocked_reason_named_when_no_candidates (model msg : String)
    (api : ProviderRequest Provider.gemini → Except ApiError (ProviderResponse Provider.gemini))
    (r : GeminiResponse) (fb : PromptFeedback) (br : BlockReason)
    (h1 : api (mkRequest Provider.gemini model msg) = Except.ok r)
    (h2 : r.candidates = [])
    (h3 : r.prompt_feedback = some fb)
    (h4 : fb.block_reason = some br) :
    ∃ s t, get_ai_response Provider.gemini model api msg = s ++ br.name ++ t := by
  refine ⟨blockedMsgPre, blockedMsgPost, ?_⟩
  rw [get_ai_response_gemini_ok model msg api r h1]
  rcases r with ⟨cands, pf⟩
  simp only at h2 h3
  subst h2
  subst h3
  rcases fb with ⟨rb⟩
  simp only at h4
  subst h4
  rfl

/-- Claim C4 witness: the amended theorem applied to a concrete Gemini
response blocked with reason `"SAFETY"`. -/
theorem blocked_reason_named_when_no_candidates_witness :
    ∃ s t, get_ai_response Provider.gemini "gemini-pro"
      (fun _ => Except.ok ⟨[], some ⟨some ⟨"SAFETY"⟩⟩⟩) "hi" = s ++ "SAFETY" ++ t :=
  blocked_reason_named_when_no_candidates "gemini-pro" "hi"
    (fun _ => Except.ok ⟨[], some ⟨some ⟨"SAFETY"⟩⟩⟩)
    ⟨[], some ⟨some ⟨"SAFETY"⟩⟩⟩ ⟨some ⟨"SAFETY"⟩⟩ ⟨"SAFETY"⟩ rfl rfl rfl rfl

/-! ### Claim C5 -/

/-- Claim C5: for every Gemini provider response with no candidates and no
block reason (prompt feedback absent, or present without a block reason),
`get_ai_response` returns exactly the fixed empty-response string. -/
theorem gemini_empty_response_msg (model msg : String)
    (api : ProviderRequest Provider.gemini → Except ApiError (ProviderResponse Provider.gemini))
    (r : GeminiResponse)
    (h1 : api (mkRequest Provider.gemini model msg) = Except.ok r)
    (h2 : r.candidates = [])
    (h3 : r.prompt_feedback = none ∨
      ∃ fb, r.prompt_feedback = some fb ∧ fb.block_reason = none) :
    get_ai_response Provider.gemini model api msg = emptyResponseMsg := by
  rw [get_ai_response_gemini_ok model msg api r h1]
  rcases r with ⟨cands, pf⟩
  simp only at h2 h3
  subst h2
  rcases h3 with h3 | ⟨fb, h3, h4⟩
  · subst h3; rfl
  · subst h3
    rcases fb with ⟨rb⟩
    simp only at h4
    subst h4
    rfl

/-- Claim C5 witness: the theorem applied to a concrete Gemini response
with no candidates and absent prompt feedback. -/
theorem gemini_empty_response_msg_witness :
    get_ai_response Provider.gemini "gemini-pro"
      (fun _ => Except.ok ⟨[], none⟩) "hi" = emptyResponseMsg :=
  gemini_empty_response_msg "gemini-pro" "hi"
    (fun _ => Except.ok ⟨[], none⟩) ⟨[], none⟩ rfl rfl (Or.inl rfl)

/-! ### Claim C6 -/

/-- Claim C6: when the environment selects an invalid provider name, or the
API key required by the selected provider is unset or empty, startup stops
with a printed error message and no inbound message is ever handled: the
whole run is that error. -/
theorem startup_missing_key_or_invalid_provider_exits (env : String → Option String)
    (inbox : List InboundEvent)
    (h : (pyLower ((env "AI_PROVIDER").getD "openai") ≠ "openai" ∧
          pyLower ((env "AI_PROVIDER").getD "openai") ≠ "gemini") ∨
         (pyLower ((env "AI_PROVIDER").getD "openai") = "openai" ∧
          pyFalsy (env "OPENAI_API_KEY") = true) ∨
         (pyLower ((env "AI_PROVIDER").getD "openai") = "gemini" ∧
          pyFalsy (env "GOOGLE_API_KEY") = true)) :
    ∃ m, startup env = Except.error m ∧ runBot env inbox = Except.error m := by
  have hstart : ∃ m, startup env = Except.error m := by
    rcases h with ⟨h1, h2⟩ | ⟨h1, h2⟩ | ⟨h1, h2⟩
    · simp only [startup, if_neg h1, if_neg h2]
      exact ⟨_, rfl⟩
    · simp [startup, h1, h2]
    · simp [startup, h1, h2]
  obtain ⟨m, hm⟩ := hstart
  refine ⟨m, hm, ?_⟩
  simp only [runBot, hm]

/-- Claim C6 witness: the theorem applied to an empty environment, where
the provider defaults to OpenAI and its API key is missing. -/
theorem startup_missing_key_or_invalid_provider_exits_witness :
    ∃ m, startup (fun _ => none) = Except.error m ∧
      runBot (fun _ => none) [] = Except.error m :=
  startup_missing_key_or_invalid_provider_exits (fun _ => none) []
    (Or.inr (Or.inl ⟨by decide, by decide⟩))

/-! ### Claim C7 -/

/-- Claim C7, counterexample: when both the reply send and the fallback
send fail, the handler delivers no outbound reply at all, so the claim
that every inbound text message yields exactly one outbound reply fails. -/
theorem no_reply_when_both_sends_fail :
    deliveredReplies (handle_message (some "hello") "the reply" true true) = [] := by
  decide

/-- Claim C7 (amended): for every inbound message with non-empty text, at
most one outbound reply is delivered: the AI reply when the send succeeds,
the fallback error reply when the send fails and the fallback succeeds,
and none when both sends fail. -/
theorem delivered_replies_characterization (t : String) (ht : t ≠ "") (ai : String)
    (sendFails fallbackFails : Bool) :
    deliveredReplies (handle_message (some t) ai sendFails fallbackFails) =
      if sendFails then (if fallbackFails then [] else [sendFailFallback]) else [ai] := by
  cases sendFails <;> cases fallbackFails <;>
    simp [handle_message, deliveredReplies, ht]

/-- Claim C7 witness: the amended theorem applied to a concrete message
with both sends succeeding, delivering exactly the AI reply. -/
theorem delivered_replies_characterization_witness :
    deliveredReplies (handle_message (some "hi") "the answer" false false) = ["the answer"] :=
  delivered_replies_characterization "hi" (by decide) "the answer" false false

/-! ### Claim C8 -/

/-- Claim C8, counterexample: when the fallback send itself fails, the
exception escapes `handle_message`, so the claim that a delivery failure
never propagates out of the handler fails. -/
theorem fallback_failure_escapes_handler :
    (handle_message (some "hi") "ok" true true).raised = true := by decide

/-- Claim C8 (amended): when the reply send fails, the handler catches that
failure, logs it, and attempts the fallback text exactly once; the original
failure does not propagate, but a failure of the fallback send itself does
escape the handler. -/
theorem send_failure_fallback_once (t : String) (ht : t ≠ "") (ai : String)
    (fallbackFails : Bool) :
    (handle_message (some t) ai true fallbackFails).effects =
      [Effect.typing, Effect.queryAI t, Effect.replyAttempt ai false, Effect.logSendError,
        Effect.replyAttempt sendFailFallback (!fallbackFails)] ∧
    (handle_message (some t) ai true fallbackFails).raised = fallbackFails := by
  cases fallbackFails <;> simp [handle_message, ht]

/-- Claim C8 witness: the amended theorem applied to a concrete message
whose first send fails and whose fallback send succeeds. -/
theorem send_failure_fallback_once_witness :
    (handle_message (some "hi") "ok" true false).effects =
      [Effect.typing, Effect.queryAI "hi", Effect.replyAttempt "ok" false,
        Effect.logSendError, Effect.replyAttempt sendFailFallback true] ∧
    (handle_message (some "hi") "ok" true false).raised = false :=
  send_failure_fallback_once "hi" (by decide) "ok" false

/-! ### Claim C9 -/

/-- Claim C9: in the Gemini branch the candidates check precedes the
block-reason check: for every response with a non-empty candidates list
and a block reason set, the result is the extraction from the first
candidate (its first part text, or the fixed could-not-generate string),
computed without consulting the block reason. -/
theorem candidates_precede_block_reason (model msg : String)
    (api : ProviderRequest Provider.gemini → Except ApiError (ProviderResponse Provider.gemini))
    (r : GeminiResponse) (c : GeminiCandidate) (cs : List GeminiCandidate)
    (fb : PromptFeedback) (br : BlockReason)
    (h1 : api (mkRequest Provider.gemini model msg) = Except.ok r)
    (h2 : r.candidates = c :: cs)
    (_h3 : r.prompt_feedback = some fb)
    (_h4 : fb.block_reason = some br) :
    get_ai_response Provider.gemini model api msg = candidateText c ∧
    ((∃ ct pt ps, c.content = some ct ∧ ct.parts = some (pt :: ps) ∧
      candidateText c = pt.text) ∨
      candidateText c = couldntGenerateMsg) := by
  constructor
  · rw [get_ai_response_gemini_ok model msg api r h1]
    rcases r with ⟨cands, pf⟩
    simp only at h2
    subst h2
    exact geminiExtract_cons c cs pf
  · exact candidateText_parts c

/-- Claim C9 witness: the theorem applied to a concrete response carrying
both a candidate with part text `"fine"` and the block reason `"OTHER"`;
the result is the candidate's text. -/
theorem candidates_precede_block_reason_witness :
    get_ai_response Provider.gemini "gemini-pro"
      (fun _ => Except.ok ⟨[⟨some ⟨some [⟨"fine"⟩]⟩⟩], some ⟨some ⟨"OTHER"⟩⟩⟩) "hi" =
      candidateText ⟨some ⟨some [⟨"fine"⟩]⟩⟩ :=
  (candidates_precede_block_reason "gemini-pro" "hi"
    (fun _ => Except.ok ⟨[⟨some ⟨some [⟨"fine"⟩]⟩⟩], some ⟨some ⟨"OTHER"⟩⟩⟩)
    ⟨[⟨some ⟨some [⟨"fine"⟩]⟩⟩], some ⟨some ⟨"OTHER"⟩⟩⟩
    ⟨some ⟨some [⟨"fine"⟩]⟩⟩ [] ⟨some ⟨"OTHER"⟩⟩ ⟨"OTHER"⟩
    rfl rfl rfl rfl).1

/-! ### Claim C10 -/

/-- Claim C10: for every inbound message whose text is absent or empty,
`handle_message` returns immediately: no typing indicator, no AI call, no
reply attempt of any kind, and nothing escapes the handler. -/
theorem empty_message_ignored (ai : String) (sendFails fallbackFails : Bool)
    (t : Option String) (h : t = none ∨ t = some "") :
    handle_message t ai sendFails fallbackFails = { effects := [], raised := false } := by
  rcases h with h | h <;> subst h <;> simp [handle_message]

/-- Claim C10 witness: the theorem applied to a concrete empty-text
message. -/
theorem empty_message_ignored_witness :
    handle_message (some "") "resp" true false = { effects := [], raised := false } :=
  empty_message_ignored "resp" true false (some "") (Or.inr rfl)

end Bot
